import Mathlib

/-!
# Verification of the repokit CLI (shallow embedding)

This file embeds the logic of the repokit command-line tool in Lean 4:

* `validateProjectName` — `src/utils/validation.js`
* the preference store (`loadConfig` / `saveConfig`) — `src/utils/config.js`
* the SSH identity lister (`getGitHubSSHKeys`) — `src/utils/ssh.js`
* the git / GitHub adapter command builders — `src/utils/git.js`,
  `src/utils/github.js`
* the `init` provisioning workflow (`initCommand`) — `src/commands/init.js`
* the `config` command action — `src/index.js`

JavaScript strings are modelled as `List Char` (`JStr`).  External effects
(filesystem, subprocesses, interactive prompts) are modelled by an oracle
structure `World` recording the success/failure of each external call, and
the workflow is a pure function from a request and a `World` to the ordered
list of externally visible mutations (`Event`) it performs plus a process
exit code.
-/

/-- JavaScript strings, modelled as lists of characters. -/
abbrev JStr := List Char

/-- Whitespace characters removed by JavaScript `String.prototype.trim`
(space, tab, line feed, carriage return, vertical tab, form feed). -/
def isJSSpace (c : Char) : Bool :=
  c == ' ' || c == '\t' || c == '\n' || c == '\r' || c == '\u000b' || c == '\u000c'

/-- JavaScript `String.prototype.trim`: drop surrounding whitespace. -/
def jsTrim (s : JStr) : JStr :=
  ((s.dropWhile isJSSpace).reverse.dropWhile isJSSpace).reverse

/-- JavaScript `String.prototype.startsWith pat`. -/
def startsWithSeq : JStr → JStr → Bool
  | [], _ => true
  | _ :: _, [] => false
  | p :: ps, c :: cs => p == c && startsWithSeq ps cs

/-- JavaScript `String.prototype.includes pat` (substring occurrence). -/
def containsSeq (pat : JStr) : JStr → Bool
  | [] => startsWithSeq pat []
  | c :: rest => startsWithSeq pat (c :: rest) || containsSeq pat rest

/-- JavaScript `String.prototype.replace (pat, repl)` with a string pattern:
replace the first occurrence of `pat` (if any) by `repl`. -/
def jsReplaceFirst (pat repl : JStr) : JStr → JStr
  | [] => if pat = [] then repl else []
  | c :: rest =>
    if startsWithSeq pat (c :: rest) then repl ++ (c :: rest).drop pat.length
    else c :: jsReplaceFirst pat repl rest

/-- Truthiness of an optional JavaScript string: `null`/`undefined` and the
empty string are falsy. -/
def jsTruthy : Option JStr → Bool
  | none => false
  | some s => !s.isEmpty

/-! ## Name validator (`src/utils/validation.js`) -/

/-- The distinct failure causes of `validateProjectName`, one per `throw`
site of the source. -/
inductive NameError
  | required          -- "Project name is required"
  | empty             -- "Project name cannot be empty"
  | tooLong           -- "Project name must be 100 characters or less"
  | startsWithPeriod  -- "Project name cannot start with a period"
  | startsWithHyphen  -- "Project name cannot start with a hyphen"
  | invalidChars      -- "Project name can only contain letters, numbers, ..."
  | containsDotDot    -- "Project name cannot contain \x22..\x22"
deriving DecidableEq

/-- The exact message text attached to each `throw` in the source. -/
def errMessage : NameError → JStr
  | .required => "Project name is required".data
  | .empty => "Project name cannot be empty".data
  | .tooLong => "Project name must be 100 characters or less".data
  | .startsWithPeriod => "Project name cannot start with a period".data
  | .startsWithHyphen => "Project name cannot start with a hyphen".data
  | .invalidChars =>
      "Project name can only contain letters, numbers, hyphens, underscores, and periods".data
  | .containsDotDot => "Project name cannot contain \x22..\x22".data

/-- `MAX_PROJECT_NAME_LENGTH` from the source. -/
def MAX_PROJECT_NAME_LENGTH : Nat := 100

/-- One character of `VALID_NAME_PATTERN = /^[a-zA-Z0-9._-]+$/`. -/
def validNameChar (c : Char) : Bool :=
  ('a' ≤ c && c ≤ 'z') || ('A' ≤ c && c ≤ 'Z') || ('0' ≤ c && c ≤ '9')
    || c == '.' || c == '_' || c == '-'

/-- `VALID_NAME_PATTERN.test s` for a string already known non-empty:
every character lies in `[a-zA-Z0-9._-]`. -/
def validNamePattern (s : JStr) : Bool :=
  s.all validNameChar

/-- `validateProjectName` from `src/utils/validation.js`, checks in source
order.  The JS guard `!name || typeof name !== 'string'` reduces, for an
actual string argument, to the emptiness test. -/
def validateProjectName (name : JStr) : Except NameError JStr :=
  if name = [] then .error .required
  else
    let trimmedName := jsTrim name
    if trimmedName.length = 0 then .error .empty
    else if trimmedName.length > MAX_PROJECT_NAME_LENGTH then .error .tooLong
    else if startsWithSeq ".".data trimmedName then .error .startsWithPeriod
    else if startsWithSeq "-".data trimmedName then .error .startsWithHyphen
    else if !validNamePattern trimmedName then .error .invalidChars
    else if containsSeq "..".data trimmedName then .error .containsDotDot
    else .ok trimmedName

/-- `validateGitHubName` is an alias of `validateProjectName` in the source. -/
def validateGitHubName : JStr → Except NameError JStr := validateProjectName

/-! Spec-side characterisation of the validator, for the refinement claim
about acceptance/rejection.  `specFirstViolation` follows the spec's words:
the ordered rule list "non-empty, length, leading '.', leading '-',
character set, '..' substring", returning the first violated rule. -/

/-- The six rules of the spec, in the spec's order. -/
inductive NameRule
  | ruleNonEmpty | ruleLength | ruleLeadingPeriod | ruleLeadingHyphen
  | ruleCharset | ruleDotDot
deriving DecidableEq

/-- Modelled from the spec: the first violated rule of the trimmed input,
or `none` when the input is acceptable. -/
def specFirstViolation (s : JStr) : Option NameRule :=
  let t := jsTrim s
  if t = [] then some .ruleNonEmpty
  else if t.length > 100 then some .ruleLength
  else if startsWithSeq ".".data t then some .ruleLeadingPeriod
  else if startsWithSeq "-".data t then some .ruleLeadingHyphen
  else if !t.all validNameChar then some .ruleCharset
  else if containsSeq "..".data t then some .ruleDotDot
  else none

/-- Which spec rule each source error corresponds to (the source reports
emptiness with two distinct messages, one for the empty string and one for
a whitespace-only string; both signal the non-empty rule). -/
def ruleOf : NameError → NameRule
  | .required => .ruleNonEmpty
  | .empty => .ruleNonEmpty
  | .tooLong => .ruleLength
  | .startsWithPeriod => .ruleLeadingPeriod
  | .startsWithHyphen => .ruleLeadingHyphen
  | .invalidChars => .ruleCharset
  | .containsDotDot => .ruleDotDot

/-! ## Preference store (`src/utils/config.js`)

The store serialises with `JSON.stringify` and parses with `JSON.parse`,
both external builtins (out of the repository's scope, like git and gh).
The file is therefore modelled at the value level: it is missing,
unparsable, or holds a parsed flat record whose fields may individually be
absent — exactly the granularity `loadConfig`'s spread-merge observes. -/

/-- The fully populated configuration record used by the program
(`defaultOrg = none` models the JSON `null` / personal account). -/
structure ConfigRecord where
  defaultOrg : Option JStr
  defaultVisibility : JStr
deriving DecidableEq

/-- `DEFAULT_CONFIG` from the source. -/
def DEFAULT_CONFIG : ConfigRecord :=
  { defaultOrg := none, defaultVisibility := "private".data }

/-- A parsed preference file: each field may be present (possibly `null`,
for `defaultOrg`) or absent. -/
structure StoredPrefs where
  defaultOrg : Option (Option JStr) := none
  defaultVisibility : Option JStr := none
deriving DecidableEq

/-- The on-disk state of `~/.repokitrc`. -/
inductive ConfigFile
  | missing
  | unparsable
  | parsed (p : StoredPrefs)
deriving DecidableEq

/-- The JavaScript object spread `{ ...DEFAULT_CONFIG, ...userConfig }`:
fields present in `userConfig` (even when `null`) override the defaults. -/
def mergeSpread (d : ConfigRecord) (u : StoredPrefs) : ConfigRecord :=
  { defaultOrg := u.defaultOrg.getD d.defaultOrg,
    defaultVisibility := u.defaultVisibility.getD d.defaultVisibility }

/-- `loadConfig` from `src/utils/config.js`.  The second component records
whether the `console.warn` branch ran. -/
def loadConfig : ConfigFile → ConfigRecord × Bool
  | .missing => ({ DEFAULT_CONFIG with }, false)
  | .unparsable => ({ DEFAULT_CONFIG with }, true)
  | .parsed p => (mergeSpread DEFAULT_CONFIG p, false)

/-- `saveConfig` from `src/utils/config.js`: `JSON.stringify` of the full
record produces a file that parses back to a record with both fields
present. -/
def saveConfig (c : ConfigRecord) : ConfigFile :=
  .parsed { defaultOrg := some c.defaultOrg,
            defaultVisibility := some c.defaultVisibility }

/-- Saving an arbitrary partial record (`JSON.stringify` keeps exactly the
present fields, and parsing restores them). -/
def saveStored (p : StoredPrefs) : ConfigFile := .parsed p

/-! ## SSH identity lister (`src/utils/ssh.js`) -/

/-- A host block under construction / an emitted identity entry. -/
structure SSHEntry where
  name : JStr
  host : JStr
  identityFile : Option JStr
deriving DecidableEq

/-- Case-insensitive prefix test on character lists. -/
def caseInsensPref : JStr → JStr → Bool
  | [], _ => true
  | _ :: _, [] => false
  | k :: ks, c :: cs => (k.toLower == c.toLower) && caseInsensPref ks cs

/-- Matcher for the directive regexes of the source, all of the form
`/^Kw\s+(.+)$/i` applied to a trimmed line: a case-insensitive keyword,
at least one whitespace character, then the (non-empty) remainder after
the maximal whitespace run. -/
def matchDirective (kw line : JStr) : Option JStr :=
  if caseInsensPref kw line then
    match line.drop kw.length with
    | [] => none
    | c :: rest =>
      if isJSSpace c then
        match (c :: rest).dropWhile isJSSpace with
        | [] => none
        | v => some v
      else none
  else none

/-- Split a string on newline characters, as `content.split('\n')`. -/
def splitLines : JStr → List JStr
  | [] => [[]]
  | c :: rest =>
    if c = '\n' then [] :: splitLines rest
    else
      match splitLines rest with
      | l :: ls => (c :: l) :: ls
      | [] => [[c]]

/-- A host block under construction, as in the line loop of the source
(`host`, `name`, `identityFile`, `isGitHub`). -/
structure SSHBlock where
  host : JStr
  name : JStr
  identityFile : Option JStr
  isGitHub : Bool
deriving DecidableEq

/-- The parser state: accumulated GitHub-related blocks and the block
currently open. -/
structure SSHParseState where
  hosts : List SSHBlock
  currentHost : Option SSHBlock
deriving DecidableEq

/-- One iteration of the line loop of `getGitHubSSHKeys`. -/
def processLine (home : JStr) (st : SSHParseState) (line : JStr) : SSHParseState :=
  let trimmed := jsTrim line
  match matchDirective "host".data trimmed with
  | some hostValue =>
    let flushed :=
      match st.currentHost with
      | some cur => if cur.isGitHub then st.hosts ++ [cur] else st.hosts
      | none => st.hosts
    { hosts := flushed,
      currentHost := some
        { host := hostValue, name := hostValue, identityFile := none,
          isGitHub := containsSeq "github.com".data hostValue } }
  | none =>
    match st.currentHost with
    | none => st
    | some cur =>
      match matchDirective "hostname".data trimmed with
      | some v =>
        if v = "github.com".data then
          { st with currentHost := some { cur with isGitHub := true } }
        else st
      | none =>
        match matchDirective "identityfile".data trimmed with
        | some v =>
          { st with currentHost := some { cur with identityFile := some (jsReplaceFirst "~".data home v) } }
        | none => st

/-- Friendly-name derivation of the final `hosts.map` of the source. -/
def friendlyEntry (h : SSHBlock) : SSHEntry :=
  let friendlyName :=
    if startsWithSeq "github.com-".data h.host then
      jsReplaceFirst "github.com-".data [] h.host
    else if h.host = "github.com".data then "default".data
    else h.host
  { name := friendlyName, host := h.host, identityFile := h.identityFile }

/-- `getGitHubSSHKeys` from `src/utils/ssh.js`.  `home` is the value of
`homedir()`; `configContents` is `none` when `~/.ssh/config` does not
exist, else the file text. -/
def getGitHubSSHKeys (home : JStr) (configContents : Option JStr) : List SSHEntry :=
  match configContents with
  | none => []
  | some content =>
    let lines := splitLines content
    let final := lines.foldl (processLine home) { hosts := [], currentHost := none }
    let hosts :=
      match final.currentHost with
      | some cur => if cur.isGitHub then final.hosts ++ [cur] else final.hosts
      | none => final.hosts
    hosts.map friendlyEntry

/-! ## Version-control and hosting-provider adapters
(`src/utils/git.js`, `src/utils/github.js`)

Each wrapper issues one shell command; here the wrappers build the exact
command string the source interpolates.  Note that `gitPush` in the source
is `gitPush(dir, branch = 'main')` — it has **no** identity-override
parameter, and issues `git push -u origin ${branch}` unconditionally. -/

def gitInitCmd : JStr := "git init".data

def gitAddAllCmd : JStr := "git add -A".data

/-- `git commit -m "${message}"`. -/
def gitCommitCmd (message : JStr) : JStr :=
  "git commit -m \x22".data ++ message ++ "\x22".data

/-- `git remote add origin ${url}`. -/
def gitAddRemoteCmd (url : JStr) : JStr :=
  "git remote add origin ".data ++ url

/-- `git push -u origin ${branch}` — the whole command issued by `gitPush`;
the source function takes only the directory and the branch. -/
def gitPushCmd (branch : JStr) : JStr :=
  "git push -u origin ".data ++ branch

/-- `git branch -M ${newName}`. -/
def gitRenameBranchCmd (newName : JStr) : JStr :=
  "git branch -M ".data ++ newName

/-- `createRepoOnly` from `src/utils/github.js`: returns the `gh` command
issued and the deterministic SSH remote URL.  `ghUsername` is the result of
`getGhUsername()` (only consulted when `org` is falsy, as in the source's
`if (org)`). -/
def createRepoOnly (ghUsername name : JStr) (isPublic : Bool) (org : Option JStr) :
    JStr × JStr :=
  let visibility := if isPublic then "--public".data else "--private".data
  let fullName :=
    if jsTruthy org then (org.getD []) ++ "/".data ++ name
    else ghUsername ++ "/".data ++ name
  ("gh repo create ".data ++ fullName ++ " ".data ++ visibility,
   "git@github.com:".data ++ fullName ++ ".git".data)

/-! ## The init provisioning workflow (`src/commands/init.js`) -/

/-- The command-line options of `init` (`--public`, `--private`, `--here`,
`--force`, `--org <name>`); the flag fields are renamed only where the
source name is a Lean keyword. -/
structure InitOptions where
  publicFlag : Bool
  privateFlag : Bool
  here : Bool
  force : Bool
  org : Option JStr
deriving DecidableEq

/-- Effective visibility resolution of `initCommand` (CLI flag > config
default): `--public` wins, else `--private` forces private, else the stored
default decides. -/
def resolveIsPublic (publicFlag privateFlag : Bool) (defaultVisibility : JStr) : Bool :=
  if publicFlag then true
  else if privateFlag then false
  else defaultVisibility = "public".data

/-- Oracle for every external interaction of one `init` run: the outcome of
each check and each external action, plus the environment (preference file,
working directory, SSH config-derived identity list, gh username, and the
index the user picks at the interactive SSH prompt). -/
structure World where
  configFile : ConfigFile
  cwd : JStr
  ghInstalled : Bool
  ghAuthenticated : Bool
  remoteRepoExists : Bool
  targetDirExists : Bool
  mkdirOk : Bool
  writeReadmeOk : Bool
  dotGitExists : Bool
  gitInitOk : Bool
  gitRenameOk : Bool
  gitAddOk : Bool
  gitCommitOk : Bool
  ghCreateOk : Bool
  gitRemoteAddOk : Bool
  gitPushOk : Bool
  readmeExists : Bool
  ghUsername : JStr
  sshKeys : List SSHEntry
  chosenKey : Nat
deriving DecidableEq

/-- An externally visible mutation performed by the workflow.  Read-only
queries (`which gh`, `gh auth status`, `gh repo view`, `gh api user`,
`existsSync`) are oracled by `World` and not recorded. -/
inductive Event
  | mkdir (dir : JStr)
  | writeFile (path content : JStr)
  | git (dir cmd : JStr)
  | gh (cmd : JStr)
deriving DecidableEq

/-- The observable outcome of a run: the ordered list of mutations that
completed, and the process exit code (`process.exit(1)` on any failure,
0 on success). -/
structure InitResult where
  events : List Event
  exitCode : Nat
deriving DecidableEq

/-- The SSH-identity selection of step 7: with more than one key the user
picks one interactively (`chosen` indexes the choice); with exactly one it
is used silently; with none there is no override.  The selected value is
the entry's `identityFile` (possibly null). -/
def selectIdentityFile (keys : List SSHEntry) (chosen : Nat) : Option JStr :=
  if 1 < keys.length then (keys.get? (chosen % keys.length)).bind (·.identityFile)
  else
    match keys with
    | k :: _ => k.identityFile
    | [] => none

/-- `initCommand` from `src/commands/init.js`, straight-line translation.
An event is recorded when the corresponding external action completed; on
a failed action the run stops with exit code 1 and the events recorded so
far.  `selectIdentityFile` models the prompt of step 7; its result is bound
exactly as in the source — where `gitPush(targetDir, 'main',
selectedIdentityFile)` passes a third argument that the two-parameter
`gitPush` silently drops. -/
def initCommand (projectName : JStr) (o : InitOptions) (w : World) : InitResult :=
  let config := (loadConfig w.configFile).1
  match validateProjectName projectName with
  | .error _ => ⟨[], 1⟩
  | .ok name =>
  let isPublic := resolveIsPublic o.publicFlag o.privateFlag config.defaultVisibility
  let org : Option JStr :=
    match o.org with
    | some v => some v
    | none => config.defaultOrg
  if jsTruthy org && !(validateGitHubName (org.getD [])).isOk then ⟨[], 1⟩ else
  let useCurrentDir := o.here
  let targetDir := if useCurrentDir then w.cwd else w.cwd ++ "/".data ++ name
  -- Preflight checks
  if !w.ghInstalled then ⟨[], 1⟩ else
  if !w.ghAuthenticated then ⟨[], 1⟩ else
  if w.remoteRepoExists then ⟨[], 1⟩ else
  -- Safety checks for --here
  if useCurrentDir && w.dotGitExists && !o.force then ⟨[], 1⟩ else
  if useCurrentDir && w.readmeExists && !o.force then ⟨[], 1⟩ else
  -- Step 1: create directory (if not using current)
  if !useCurrentDir && w.targetDirExists then ⟨[], 1⟩ else
  if !useCurrentDir && !w.mkdirOk then ⟨[], 1⟩ else
  let ev1 : List Event := if useCurrentDir then [] else [.mkdir targetDir]
  -- Step 2: create README.md
  if !w.writeReadmeOk then ⟨ev1, 1⟩ else
  let ev2 := ev1 ++ [.writeFile (targetDir ++ "/README.md".data) ("# ".data ++ name ++ "\n".data)]
  -- Step 3: initialize git (only if not already a repo), rename branch
  if !w.dotGitExists && !w.gitInitOk then ⟨ev2, 1⟩ else
  let ev3 := if w.dotGitExists then ev2 else ev2 ++ [.git targetDir gitInitCmd]
  if !w.gitRenameOk then ⟨ev3, 1⟩ else
  let ev4 := ev3 ++ [.git targetDir (gitRenameBranchCmd "main".data)]
  -- Step 4: stage all, commit
  if !w.gitAddOk then ⟨ev4, 1⟩ else
  let ev5 := ev4 ++ [.git targetDir gitAddAllCmd]
  if !w.gitCommitOk then ⟨ev5, 1⟩ else
  let ev6 := ev5 ++ [.git targetDir (gitCommitCmd "Initial commit".data)]
  -- Step 5: create GitHub repo
  let ghResult := createRepoOnly w.ghUsername name isPublic org
  if !w.ghCreateOk then ⟨ev6, 1⟩ else
  let ev7 := ev6 ++ [.gh ghResult.1]
  -- Step 6: add remote
  if !w.gitRemoteAddOk then ⟨ev7, 1⟩ else
  let ev8 := ev7 ++ [.git targetDir (gitAddRemoteCmd ghResult.2)]
  -- Step 7: select SSH key and push
  let _selectedIdentityFile := selectIdentityFile w.sshKeys w.chosenKey
  if !w.gitPushOk then ⟨ev8, 1⟩ else
  let ev9 := ev8 ++ [.git targetDir (gitPushCmd "main".data)]
  ⟨ev9, 0⟩

/-! ## The config command (`src/index.js`) -/

/-- The options of `config` (`--org`, `--visibility`, `--show`);
`showFlag` renames the source's `show`, a Lean keyword. -/
structure ConfigOptions where
  org : Option JStr
  visibility : Option JStr
  showFlag : Bool
deriving DecidableEq

/-- Observable outcome of one `config` invocation: the resulting preference
file, the exit code, and the messages printed on the error stream. -/
structure ConfigCmdResult where
  file : ConfigFile
  exitCode : Nat
  errorOutput : List JStr
deriving DecidableEq

/-- The `console.error` text of the invalid-visibility branch. -/
def visibilityErrMsg : JStr :=
  "Visibility must be \x22public\x22 or \x22private\x22".data

/-- The `config` command action from `src/index.js`, straight-line
translation; `file` is the state of `~/.repokitrc` when the command runs. -/
def configCommand (o : ConfigOptions) (file : ConfigFile) : ConfigCmdResult :=
  let config := (loadConfig file).1
  -- if --show or no options provided, show current config (no write)
  if o.showFlag || (!jsTruthy o.org && !jsTruthy o.visibility) then
    ⟨file, 0, []⟩
  else
    let config :=
      if jsTruthy o.org then
        if o.org.getD [] = "personal".data then { config with defaultOrg := none }
        else { config with defaultOrg := some (o.org.getD []) }
      else config
    if jsTruthy o.visibility then
      if !(o.visibility.getD [] = "public".data || o.visibility.getD [] = "private".data) then
        ⟨file, 1, [visibilityErrMsg]⟩
      else
        ⟨saveConfig { config with defaultVisibility := o.visibility.getD [] }, 0, []⟩
    else
      ⟨saveConfig config, 0, []⟩

/-! ## Theorems -/

lemma jsTrim_nil : jsTrim [] = [] := rfl

/-- On success the validator returns the trimmed input. -/
lemma vpn_ok_trim (s r : JStr) (h : validateProjectName s = .ok r) :
    r = jsTrim s := by
  simp only [validateProjectName] at h
  split_ifs at h
  simp_all

/-- On success no spec rule is violated. -/
lemma vpn_spec_none_of_ok (s r : JStr) (h : validateProjectName s = .ok r) :
    specFirstViolation s = none := by
  simp only [validateProjectName, MAX_PROJECT_NAME_LENGTH, validNamePattern] at h
  simp only [specFirstViolation]
  split_ifs at h with h0 h1 h2 h3 h4 h5 h6
  all_goals try cases h
  have h1' : ¬ jsTrim s = [] := by simpa [List.length_eq_zero] using h1
  simp [h1', h2, h3, h4, h5, h6]

/-- On failure, the reported error is the first violated rule of the
spec-side ordered rule list. -/
lemma vpn_error_rule (s : JStr) (e : NameError) (h : validateProjectName s = .error e) :
    specFirstViolation s = some (ruleOf e) := by
  simp only [validateProjectName, MAX_PROJECT_NAME_LENGTH, validNamePattern] at h
  simp only [specFirstViolation]
  split_ifs at h with h0 h1 h2 h3 h4 h5 h6 <;> cases h
  · subst h0; simp [jsTrim_nil, ruleOf]
  · have h1' : jsTrim s = [] := by simpa [List.length_eq_zero] using h1
    simp [h1', ruleOf]
  · have h1' : ¬ jsTrim s = [] := by simpa [List.length_eq_zero] using h1
    simp [h1', h2, ruleOf]
  · have h1' : ¬ jsTrim s = [] := by simpa [List.length_eq_zero] using h1
    simp [h1', h2, h3, ruleOf]
  · have h1' : ¬ jsTrim s = [] := by simpa [List.length_eq_zero] using h1
    simp [h1', h2, h3, h4, ruleOf]
  · have h1' : ¬ jsTrim s = [] := by simpa [List.length_eq_zero] using h1
    simp [h1', h2, h3, h4, h5, ruleOf]
  · have h1' : ¬ jsTrim s = [] := by simpa [List.length_eq_zero] using h1
    simp [h1', h2, h3, h4, h5, h6, ruleOf]

/-- When no rule is violated the validator accepts and returns the trimmed
input. -/
lemma vpn_ok_of_spec_none (s : JStr) (h : specFirstViolation s = none) :
    validateProjectName s = .ok (jsTrim s) := by
  simp only [specFirstViolation] at h
  simp only [validateProjectName, MAX_PROJECT_NAME_LENGTH, validNamePattern]
  split_ifs at h with h1 h2 h3 h4 h5 h6
  all_goals try simp at h
  have hs : ¬ s = [] := fun hs => h1 (by simp [hs, jsTrim_nil])
  have h1' : ¬ (jsTrim s).length = 0 := by simpa [List.length_eq_zero] using h1
  simp [hs, h1', h2, h3, h4, h5, h6]

/-- C3: `validateProjectName` accepts exactly the strings whose trimmed form
is non-empty, of length at most 100, does not start with `.` or `-`, uses
only `[A-Za-z0-9._-]`, and has no `..` substring; acceptance returns the
trimmed string unchanged; a rejection reports the first violated rule in
the order non-empty, length, leading `.`, leading `-`, character set, `..`,
and the message texts of distinct rules are distinct. -/
theorem C3_validator_characterisation :
    (∀ s : JStr, (∃ r, validateProjectName s = .ok r) ↔ specFirstViolation s = none) ∧
    (∀ s r : JStr, validateProjectName s = .ok r → r = jsTrim s) ∧
    (∀ (s : JStr) (e : NameError),
        validateProjectName s = .error e → specFirstViolation s = some (ruleOf e)) ∧
    (∀ e₁ e₂ : NameError, ruleOf e₁ ≠ ruleOf e₂ → errMessage e₁ ≠ errMessage e₂) := by
  refine ⟨?_, vpn_ok_trim, vpn_error_rule, ?_⟩
  · intro s
    constructor
    · rintro ⟨r, hr⟩
      exact vpn_spec_none_of_ok s r hr
    · intro h
      exact ⟨jsTrim s, vpn_ok_of_spec_none s h⟩
  · intro e₁ e₂ h
    cases e₁ <;> cases e₂ <;> first | exact absurd rfl h | decide

/-- Witness for C3: evaluated at `" my-app "`, the validator accepts and
returns the trimmed name. -/
theorem C3_validator_witness : ("my-app".data : JStr) = jsTrim " my-app ".data :=
  C3_validator_characterisation.2.1 " my-app ".data "my-app".data (by rfl)

/-- C5: saving a preferences record and loading again yields the built-in
defaults merged with the saved record — a field present in the record
overrides the default, an absent field takes the default value
(`defaultOrg = none`, `defaultVisibility = "private"`). -/
theorem C5_save_then_load_merges_defaults :
    ∀ p : StoredPrefs,
      (∀ o, p.defaultOrg = some o → ((loadConfig (saveStored p)).1).defaultOrg = o) ∧
      (p.defaultOrg = none → ((loadConfig (saveStored p)).1).defaultOrg = none) ∧
      (∀ v, p.defaultVisibility = some v →
        ((loadConfig (saveStored p)).1).defaultVisibility = v) ∧
      (p.defaultVisibility = none →
        ((loadConfig (saveStored p)).1).defaultVisibility = "private".data) ∧
      (loadConfig (saveStored p)).1 = mergeSpread DEFAULT_CONFIG p := by
  intro p
  refine ⟨?_, ?_, ?_, ?_, rfl⟩ <;>
    intro h <;>
    simp_all [loadConfig, saveStored, mergeSpread, DEFAULT_CONFIG]

/-- Witness for C5 at `{ defaultOrg := some (some "acme"), defaultVisibility
absent }`: the loaded org is "acme" and the loaded visibility falls back to
"private". -/
theorem C5_save_then_load_witness :
    ((loadConfig (saveStored
        { defaultOrg := some (some "acme".data), defaultVisibility := none })).1).defaultOrg
      = some "acme".data ∧
    ((loadConfig (saveStored
        { defaultOrg := some (some "acme".data), defaultVisibility := none })).1).defaultVisibility
      = "private".data :=
  ⟨(C5_save_then_load_merges_defaults _).1 (some "acme".data) rfl,
   (C5_save_then_load_merges_defaults _).2.2.2.1 rfl⟩

/-- C6: loading never fails the caller — a missing file yields the built-in
defaults with no warning, an unparsable file yields the same defaults and
the warning flag. -/
theorem C6_load_tolerates_missing_and_corrupt :
    loadConfig .missing = ({ defaultOrg := none, defaultVisibility := "private".data }, false) ∧
    loadConfig .unparsable =
      ({ defaultOrg := none, defaultVisibility := "private".data }, true) :=
  ⟨rfl, rfl⟩

/-- Counterexample to C9 as stated: `config --show --visibility staging`
supplies an invalid visibility value, yet the command takes the show branch
and exits 0, not 1. -/
theorem C9_counterexample :
    ¬ ((configCommand ⟨some "acme".data, some "staging".data, true⟩
          ConfigFile.missing).exitCode = 1) := by
  decide

/-- C9 as amended: when the show flag is absent and a non-empty visibility
value other than exactly "public"/"private" is supplied, the command
reports the error, exits 1, and leaves the preference file unwritten —
even when an org option was supplied in the same invocation. -/
theorem C9_amended_invalid_visibility_rejected :
    ∀ (o : ConfigOptions) (f : ConfigFile),
      o.showFlag = false →
      jsTruthy o.visibility = true →
      (∀ v, o.visibility = some v → v ≠ "public".data ∧ v ≠ "private".data) →
      configCommand o f = ⟨f, 1, [visibilityErrMsg]⟩ := by
  intro o f hshow htruthy hv
  obtain ⟨org, vis, sf⟩ := o
  cases vis with
  | none => simp [jsTruthy] at htruthy
  | some v =>
    have hv' := hv v rfl
    simp only at hshow htruthy
    subst hshow
    simp [configCommand, jsTruthy, htruthy, hv'.1, hv'.2]
    split_ifs <;> simp_all [jsTruthy]

/-- Witness for the amended C9: `config --org acme --visibility staging`
on a missing preference file errors, exits 1 and writes nothing. -/
theorem C9_amended_witness :
    configCommand ⟨some "acme".data, some "staging".data, false⟩ ConfigFile.missing
      = ⟨ConfigFile.missing, 1, [visibilityErrMsg]⟩ :=
  C9_amended_invalid_visibility_rejected _ ConfigFile.missing rfl (by decide)
    (fun v hv => by cases hv; exact ⟨by decide, by decide⟩)

/-- C4: with `--here`, when the directory already has version-control
metadata or a README and `--force` was not passed, the run exits 1 without
creating a directory, writing a file, or issuing any mutating command. -/
theorem C4_unsafe_reuse_aborts_without_mutation :
    ∀ (pn : JStr) (o : InitOptions) (w : World),
      o.here = true → o.force = false →
      (w.dotGitExists = true ∨ w.readmeExists = true) →
      initCommand pn o w = ⟨[], 1⟩ := by
  intro pn o w hhere hforce hunsafe
  cases hv : validateProjectName pn with
  | error e => simp [initCommand, hv]
  | ok name =>
    rcases hunsafe with hgit | hreadme
    · simp only [initCommand, hv, hhere, hforce, hgit, Bool.not_false, Bool.and_true,
        Bool.true_and, if_true]
      split_ifs <;> rfl
    · simp only [initCommand, hv, hhere, hforce, hreadme, Bool.not_false, Bool.and_true,
        Bool.true_and, if_true]
      split_ifs <;> rfl

/-- Witness for C4: a concrete `--here` run against a directory that is
already a git repository exits 1 having performed no mutation. -/
theorem C4_unsafe_reuse_witness :
    initCommand "app".data ⟨false, false, true, false, none⟩
      ⟨ConfigFile.missing, "/w".data, true, true, false, false, true, true, true, true,
        true, true, true, true, true, true, false, "u".data, [], 0⟩ = ⟨[], 1⟩ :=
  C4_unsafe_reuse_aborts_without_mutation "app".data _ _ rfl rfl (Or.inl rfl)

/-- C10: effective visibility in init — `--public` wins even when
`--private` is also passed; `--private` alone forces private; with neither
flag the repository is public exactly when the stored default visibility is
the string "public". -/
theorem C10_visibility_resolution :
    (∀ (privateFlag : Bool) (d : JStr), resolveIsPublic true privateFlag d = true) ∧
    (∀ d : JStr, resolveIsPublic false true d = false) ∧
    (∀ d : JStr, resolveIsPublic false false d = true ↔ d = "public".data) := by
  refine ⟨fun _ _ => rfl, fun _ => rfl, fun d => ?_⟩
  simp [resolveIsPublic]

/-- Witness for C10: with neither flag and stored default "public" the run
is public; with stored default "private" it is not. -/
theorem C10_visibility_witness :
    resolveIsPublic false false "public".data = true ∧
    ¬ resolveIsPublic false false "private".data = true :=
  ⟨(C10_visibility_resolution.2.2 "public".data).mpr rfl,
   fun h => by cases (C10_visibility_resolution.2.2 "private".data).mp h⟩

lemma startsWithSeq_self_append (p r : JStr) : startsWithSeq p (p ++ r) = true := by
  induction p with
  | nil => rfl
  | cons c cs ih => simp [startsWithSeq, ih]

/-- The concrete SSH configuration of the spec's example: a GitHub host
block with an identity file, followed by an unrelated block. -/
def exampleSSHConfig : JStr :=
  "Host github.com-work\n  IdentityFile ~/.ssh/work\nHost example.com".data

/-- C7: on the spec's example configuration the lister returns exactly one
entry, named "work" with the tilde-expanded identity file; and the friendly
name of a block is the suffix after "github.com-", or "default" for the
bare alias "github.com", or otherwise the alias itself. -/
theorem C7_ssh_lister_entries :
    (∀ home : JStr,
      getGitHubSSHKeys home (some exampleSSHConfig)
        = [⟨"work".data, "github.com-work".data, some (home ++ "/.ssh/work".data)⟩]) ∧
    (∀ (sfx n : JStr) (idf : Option JStr) (g : Bool),
      (friendlyEntry ⟨"github.com-".data ++ sfx, n, idf, g⟩).name = sfx) ∧
    (∀ (n : JStr) (idf : Option JStr) (g : Bool),
      (friendlyEntry ⟨"github.com".data, n, idf, g⟩).name = "default".data) ∧
    (∀ (a n : JStr) (idf : Option JStr) (g : Bool),
      startsWithSeq "github.com-".data a = false → a ≠ "github.com".data →
      (friendlyEntry ⟨a, n, idf, g⟩).name = a) := by
  refine ⟨fun home => rfl, fun sfx n idf g => rfl, fun n idf g => rfl,
    fun a n idf g hsw hne => ?_⟩
  simp [friendlyEntry, hsw, hne]

/-- Witness for C7: the unrelated alias "example.com" maps to itself. -/
theorem C7_ssh_lister_witness :
    (friendlyEntry ⟨"example.com".data, "example.com".data, none, false⟩).name
      = "example.com".data :=
  C7_ssh_lister_entries.2.2.2 "example.com".data "example.com".data none false
    (by decide) (by decide)

/-- A configuration whose GitHub block carries an identity path with a
non-leading tilde. -/
def tildeSSHConfig : JStr := "Host github.com\n  IdentityFile /tmp/~key".data

/-- Counterexample to C8 as stated: the identity path `/tmp/~key` does not
start with `~`, yet it is not recorded unchanged — the source replaces the
first `~` occurrence anywhere, yielding `/tmp//home/ukey` for home
`/home/u`. -/
theorem C8_counterexample :
    getGitHubSSHKeys "/home/u".data (some tildeSSHConfig)
        = [⟨"default".data, "github.com".data, some "/tmp//home/ukey".data⟩] ∧
    ¬ (getGitHubSSHKeys "/home/u".data (some tildeSSHConfig)
        = [⟨"default".data, "github.com".data, some "/tmp/~key".data⟩]) :=
  ⟨rfl, by decide⟩

/-- C8 as amended: an `IdentityFile` line inside a host block records the
given path with its first `~` occurrence (wherever it occurs) replaced by
the home directory; a path containing no `~` is recorded unchanged, and a
leading `~` is expanded to the home directory. -/
theorem C8_amended_first_tilde_replaced :
    (∀ (home line v : JStr) (hosts : List SSHBlock) (cur : SSHBlock),
      matchDirective "host".data (jsTrim line) = none →
      matchDirective "hostname".data (jsTrim line) = none →
      matchDirective "identityfile".data (jsTrim line) = some v →
      processLine home ⟨hosts, some cur⟩ line
        = ⟨hosts, some { cur with identityFile := some (jsReplaceFirst "~".data home v) }⟩) ∧
    (∀ home q : JStr, containsSeq "~".data q = false → jsReplaceFirst "~".data home q = q) ∧
    (∀ home r : JStr, jsReplaceFirst "~".data home ('~' :: r) = home ++ r) := by
  refine ⟨fun home line v hosts cur h1 h2 h3 => ?_, fun home q hq => ?_, fun home r => rfl⟩
  · simp [processLine, h1, h2, h3]
  · induction q with
    | nil => rfl
    | cons c cs ih =>
      simp only [containsSeq, startsWithSeq, Bool.or_eq_false_iff,
        Bool.and_eq_false_iff] at hq
      rcases hq with ⟨hc, hcs⟩
      rcases hc with hc | hc
      · simp [jsReplaceFirst, startsWithSeq, hc, ih hcs]
      · simp at hc

/-- Witness for the amended C8: the line `  IdentityFile ~/k` inside a
GitHub block records `/h/k` for home `/h`. -/
theorem C8_amended_witness :
    processLine "/h".data
        ⟨[], some ⟨"github.com".data, "github.com".data, none, true⟩⟩
        "  IdentityFile ~/k".data
      = ⟨[], some ⟨"github.com".data, "github.com".data, some "/h/k".data, true⟩⟩ :=
  C8_amended_first_tilde_replaced.1 "/h".data "  IdentityFile ~/k".data "~/k".data []
    ⟨"github.com".data, "github.com".data, none, true⟩ (by decide) (by decide) (by decide)

/-- C1: for an init run whose preflight succeeds, whose target directory
does not exist (fresh directory, hence no `.git` inside), and whose inputs
validate, the workflow performs exactly, in order: create the directory,
write `README.md` containing `# <name>\n`, run `git init` (the fresh
directory is not a repository) and `git branch -M main`, run `git add -A`
and `git commit -m "Initial commit"`, create the GitHub repository, add
the returned SSH URL as origin, and push `main`; and when any single step
fails, the run exits 1 immediately, no later step runs, and the events of
every completed step are left in place. -/
theorem C1_workflow_order_and_abort :
    ∀ (pn n : JStr) (o : InitOptions) (w : World) (og : Option JStr) (fn : JStr),
      validateProjectName pn = .ok n →
      (match o.org with
       | some v => some v
       | none => ((loadConfig w.configFile).1).defaultOrg) = og →
      (jsTruthy og && !(validateGitHubName (og.getD [])).isOk) = false →
      (if jsTruthy og then og.getD [] ++ "/".data ++ n
       else w.ghUsername ++ "/".data ++ n) = fn →
      o.here = false →
      w.ghInstalled = true → w.ghAuthenticated = true → w.remoteRepoExists = false →
      w.targetDirExists = false → w.dotGitExists = false →
      (let dir := w.cwd ++ "/".data ++ n
       let isPub := resolveIsPublic o.publicFlag o.privateFlag
         ((loadConfig w.configFile).1).defaultVisibility
       let allEvents : List Event := [
         .mkdir dir,
         .writeFile (dir ++ "/README.md".data) ("# ".data ++ n ++ "\n".data),
         .git dir "git init".data,
         .git dir "git branch -M main".data,
         .git dir "git add -A".data,
         .git dir "git commit -m \x22Initial commit\x22".data,
         .gh ("gh repo create ".data ++ fn ++ " ".data ++
           (if isPub then "--public".data else "--private".data)),
         .git dir ("git remote add origin git@github.com:".data ++ fn ++ ".git".data),
         .git dir "git push -u origin main".data]
       (w.mkdirOk = true → w.writeReadmeOk = true → w.gitInitOk = true →
        w.gitRenameOk = true → w.gitAddOk = true → w.gitCommitOk = true →
        w.ghCreateOk = true → w.gitRemoteAddOk = true → w.gitPushOk = true →
        initCommand pn o w = ⟨allEvents, 0⟩) ∧
       (w.mkdirOk = false → initCommand pn o w = ⟨[], 1⟩) ∧
       (w.mkdirOk = true → w.writeReadmeOk = false →
        initCommand pn o w = ⟨allEvents.take 1, 1⟩) ∧
       (w.mkdirOk = true → w.writeReadmeOk = true → w.gitInitOk = false →
        initCommand pn o w = ⟨allEvents.take 2, 1⟩) ∧
       (w.mkdirOk = true → w.writeReadmeOk = true → w.gitInitOk = true →
        w.gitRenameOk = false → initCommand pn o w = ⟨allEvents.take 3, 1⟩) ∧
       (w.mkdirOk = true → w.writeReadmeOk = true → w.gitInitOk = true →
        w.gitRenameOk = true → w.gitAddOk = false →
        initCommand pn o w = ⟨allEvents.take 4, 1⟩) ∧
       (w.mkdirOk = true → w.writeReadmeOk = true → w.gitInitOk = true →
        w.gitRenameOk = true → w.gitAddOk = true → w.gitCommitOk = false →
        initCommand pn o w = ⟨allEvents.take 5, 1⟩) ∧
       (w.mkdirOk = true → w.writeReadmeOk = true → w.gitInitOk = true →
        w.gitRenameOk = true → w.gitAddOk = true → w.gitCommitOk = true →
        w.ghCreateOk = false → initCommand pn o w = ⟨allEvents.take 6, 1⟩) ∧
       (w.mkdirOk = true → w.writeReadmeOk = true → w.gitInitOk = true →
        w.gitRenameOk = true → w.gitAddOk = true → w.gitCommitOk = true →
        w.ghCreateOk = true → w.gitRemoteAddOk = false →
        initCommand pn o w = ⟨allEvents.take 7, 1⟩) ∧
       (w.mkdirOk = true → w.writeReadmeOk = true → w.gitInitOk = true →
        w.gitRenameOk = true → w.gitAddOk = true → w.gitCommitOk = true →
        w.ghCreateOk = true → w.gitRemoteAddOk = true → w.gitPushOk = false →
        initCommand pn o w = ⟨allEvents.take 8, 1⟩)) := by
  intro pn n o w og fn hv horg horgok hfn hhere hghi hgha hrre htde hdgit
  have hguard : ¬(jsTruthy og = true ∧ (validateGitHubName (og.getD [])).isOk = false) := by
    rintro ⟨h1, h2⟩
    rw [h1, h2] at horgok
    simp at horgok
  refine ⟨?_, ?_, ?_, ?_, ?_, ?_, ?_, ?_, ?_, ?_⟩ <;>
    intros <;>
    simp_all [initCommand, createRepoOnly, gitInitCmd, gitAddAllCmd, gitCommitCmd,
      gitAddRemoteCmd, gitPushCmd, gitRenameBranchCmd]

/-- Witness for C1: a fully successful personal-account run of
`init app` from `/w` with username `u`. -/
theorem C1_workflow_witness :
    initCommand "app".data ⟨false, false, false, false, none⟩
      ⟨ConfigFile.missing, "/w".data, true, true, false, false, true, true, false, true,
        true, true, true, true, true, true, false, "u".data, [], 0⟩
    = ⟨[.mkdir "/w/app".data,
        .writeFile "/w/app/README.md".data "# app\n".data,
        .git "/w/app".data "git init".data,
        .git "/w/app".data "git branch -M main".data,
        .git "/w/app".data "git add -A".data,
        .git "/w/app".data "git commit -m \x22Initial commit\x22".data,
        .gh "gh repo create u/app --private".data,
        .git "/w/app".data "git remote add origin git@github.com:u/app.git".data,
        .git "/w/app".data "git push -u origin main".data], 0⟩ :=
  (C1_workflow_order_and_abort "app".data "app".data ⟨false, false, false, false, none⟩
    ⟨ConfigFile.missing, "/w".data, true, true, false, false, true, true, false, true,
      true, true, true, true, true, true, false, "u".data, [], 0⟩
    none "u/app".data rfl rfl rfl rfl rfl rfl rfl rfl rfl rfl).1
    rfl rfl rfl rfl rfl rfl rfl rfl rfl

/-- C2 (code bug): the push operation `gitPush` of the source has no
identity-override parameter — `gitPushCmd` depends only on the branch, so
the push issued by init is `git push -u origin main` whatever identity was
selected.  With exactly one configured GitHub identity the workflow selects
its identity file, yet the behaviour of the whole run is independent of the
configured identities and the push command never mentions the identity
file. -/
theorem C2_push_identity_override_ignored :
    (selectIdentityFile
        [⟨"work".data, "github.com-work".data, some "/home/u/.ssh/work".data⟩] 0
      = some "/home/u/.ssh/work".data) ∧
    (∀ (pn : JStr) (o : InitOptions) (w : World) (keys keys' : List SSHEntry) (ck ck' : Nat),
      initCommand pn o { w with sshKeys := keys, chosenKey := ck }
        = initCommand pn o { w with sshKeys := keys', chosenKey := ck' }) ∧
    ((initCommand "app".data ⟨false, false, false, false, none⟩
        ⟨ConfigFile.missing, "/w".data, true, true, false, false, true, true, false, true,
          true, true, true, true, true, true, false, "u".data,
          [⟨"work".data, "github.com-work".data, some "/home/u/.ssh/work".data⟩],
          0⟩).events.getLast?
      = some (.git "/w/app".data "git push -u origin main".data)) ∧
    (containsSeq "/home/u/.ssh/work".data "git push -u origin main".data = false) := by
  refine ⟨rfl, ?_, rfl, rfl⟩
  intro pn o w keys keys' ck ck'
  cases hv : validateProjectName pn <;> simp only [initCommand, hv]
